import Mathlib

/-!
Verification of the resource-reconciliation core of the
`terraform-provider-kineticpanel` repository, shallowly embedded in Lean.

The Go sources are translated as follows:

* Terraform framework attribute values (`types.String`, `types.Int64`,
  `types.Bool`) become the inductives `TFString`, `TFInt`, `TFBool`,
  with the framework's `ValueString`/`ValueInt64` accessors (which
  return the zero value on null/unknown) as Lean functions.
* The HTTP layer (`internal/provider/client.go`) is modelled at the
  level of one completed round trip: the remote side's answer is an
  `HTTPResponse` (status code plus raw body), and `Client.request`
  becomes the classification function `request` into `Except APIError
  String`.  A Go `error` produced by `fmt.Errorf("API error %d: %s",
  status, body)` is modelled structurally as `APIError` together with
  its rendered message `APIError.render`, which is exactly the string
  Go's `err.Error()` would return.
* `strings.Contains` becomes `strContains`, implemented by an explicit
  substring scan over character lists.
* Each adapter operation becomes a pure function from its Terraform
  state/plan and the remote answer(s) to an outcome value.
-/

/-- Model of the Terraform framework `types.String`: null, unknown, or a
known string value. -/
inductive TFString
  | null
  | unknown
  | value (s : String)
deriving DecidableEq, Repr

/-- Model of the Terraform framework `types.Int64`. -/
inductive TFInt
  | null
  | unknown
  | value (n : Int)
deriving DecidableEq, Repr

/-- Model of the Terraform framework `types.Bool`. -/
inductive TFBool
  | null
  | unknown
  | value (b : Bool)
deriving DecidableEq, Repr

/-- `types.String.ValueString()`: the known value, or `""` for
null/unknown. -/
def TFString.valueString : TFString → String
  | .value s => s
  | _ => ""

/-- `types.Int64.ValueInt64()`: the known value, or `0` for
null/unknown. -/
def TFInt.valueInt64 : TFInt → Int
  | .value n => n
  | _ => 0

/-- `types.String.IsNull()`. -/
def TFString.isNull : TFString → Bool
  | .null => true
  | _ => false

/-! ## Substring search (`strings.Contains`) -/

/-- Boolean test that `pat` is a prefix of `l` (character-by-character
comparison, as Go's substring scan does). -/
def charListHasPre : List Char → List Char → Bool
  | [], _ => true
  | _ :: _, [] => false
  | p :: ps, c :: cs => p == c && charListHasPre ps cs

/-- Boolean test that `pat` occurs as a contiguous substring of `l`. -/
def charListHasSub (pat : List Char) : List Char → Bool
  | [] => pat.isEmpty
  | c :: rest => charListHasPre pat (c :: rest) || charListHasSub pat rest

/-- Model of Go `strings.Contains s pat`. -/
def strContains (s pat : String) : Bool :=
  charListHasSub pat.data s.data

/-! ## Transport Client (`internal/provider/client.go`) -/

/-- HTTP method of a round trip. -/
inductive Method
  | get
  | post
  | patch
  | put
  | delete
deriving DecidableEq, Repr

/-- The remote side's answer to one HTTP round trip: the numeric status
code and the raw response body (`resp.StatusCode`, `bodyBytes`). -/
structure HTTPResponse where
  statusCode : Int
  body : String
deriving DecidableEq, Repr

/-- The non-2xx failure produced by `Client.request`: Go builds
`fmt.Errorf("API error %d: %s", resp.StatusCode, string(bodyBytes))`;
we keep the two formatted components structurally. -/
structure APIError where
  status : Int
  body : String
deriving DecidableEq, Repr

/-- The `err.Error()` string of an `APIError`, exactly as formatted by
`fmt.Errorf("API error %d: %s", status, body)`. -/
def APIError.render (e : APIError) : String :=
  "API error " ++ toString e.status ++ ": " ++ e.body

/-- `Client.request` (client.go lines 34-60), from the point where the
round trip has completed: a status code in `[200, 300)` succeeds with
the raw body, anything else fails with an `APIError` carrying the
status code and the raw body.  The method and path do not influence
the classification. -/
def request (_method : Method) (_path : String) (resp : HTTPResponse) :
    Except APIError String :=
  if resp.statusCode < 200 ∨ resp.statusCode ≥ 300 then
    .error ⟨resp.statusCode, resp.body⟩
  else
    .ok resp.body

/-- `Client.Get` (client.go line 62). -/
def clientGet (path : String) (resp : HTTPResponse) : Except APIError String :=
  request .get path resp

/-- `Client.Post` (client.go line 66); the JSON payload affects only the
request side, not the classification of the answer. -/
def clientPost (path : String) (resp : HTTPResponse) : Except APIError String :=
  request .post path resp

/-- `Client.Patch` (client.go line 85). -/
def clientPatch (path : String) (resp : HTTPResponse) : Except APIError String :=
  request .patch path resp

/-- `Client.Delete` (client.go line 97): discards the body, keeps the
error. -/
def clientDelete (path : String) (resp : HTTPResponse) : Option APIError :=
  match request .delete path resp with
  | .ok _ => none
  | .error e => some e

/-! ## Server resource (`internal/provider/resource_server.go`) -/

/-- The `attributes` object of `serverAPIResponse` (resource_server.go
lines 20-35). -/
structure ServerAttributes where
  id : Int
  name : String
  user : Int
  egg : Int
  location : Int
  node : Int
  memory : Int
  disk : Int
  cpu : Int
  docker_image : String
  startup : String
deriving DecidableEq, Repr

/-- `serverAPIResponse`: the envelope the API returns for one server. -/
structure ServerAPIResponse where
  object : String
  attributes : ServerAttributes
deriving DecidableEq, Repr

/-- `serverModel` (resource_server.go lines 41-53): the flat Terraform
attribute model. -/
structure ServerModel where
  id : TFInt
  name : TFString
  userID : TFInt
  eggID : TFInt
  locationID : TFInt
  nodeID : TFInt
  memory : TFInt
  disk : TFInt
  cpu : TFInt
  dockerImage : TFString
  startupCmd : TFString
deriving DecidableEq, Repr

/-- The creation/update payload built by `modelToPayload`: Go uses a
`map[string]any` with exactly these ten fixed keys (resource_server.go
lines 135-148); we model the map as a record with one field per key. -/
structure ServerPayload where
  name : String
  user : Int
  egg : Int
  location : Int
  node : Int
  memory : Int
  disk : Int
  cpu : Int
  docker_image : String
  startup : String
deriving DecidableEq, Repr

/-- `modelToPayload` (resource_server.go lines 135-148). -/
def modelToPayload (plan : ServerModel) : ServerPayload :=
  { name := plan.name.valueString
    user := plan.userID.valueInt64
    egg := plan.eggID.valueInt64
    location := plan.locationID.valueInt64
    node := plan.nodeID.valueInt64
    memory := plan.memory.valueInt64
    disk := plan.disk.valueInt64
    cpu := plan.cpu.valueInt64
    docker_image := plan.dockerImage.valueString
    startup := plan.startupCmd.valueString }

/-- `apiToModel` (resource_server.go lines 150-166). -/
def apiToModel (apiResp : ServerAPIResponse) : ServerModel :=
  let a := apiResp.attributes
  { id := .value a.id
    name := .value a.name
    userID := .value a.user
    eggID := .value a.egg
    locationID := .value a.location
    nodeID := .value a.node
    memory := .value a.memory
    disk := .value a.disk
    cpu := .value a.cpu
    dockerImage := .value a.docker_image
    startupCmd := .value a.startup }

/-- Outcome of `ServerResource.Read`: the resource is removed from
state, a hard diagnostic error is reported (with its detail message),
or the state is replaced by a freshly decoded model. -/
inductive ReadOutcome
  | removed
  | readError (msg : String)
  | parseError (msg : String)
  | ok (m : ServerModel)
deriving DecidableEq, Repr

/-- `ServerResource.Read` (resource_server.go lines 192-218), from the
point where the prior state has been loaded.  `dec` models
`json.Unmarshal` into `serverAPIResponse` (an external library
routine); `resp` is the remote answer to the GET round trip.  A
transport failure whose rendered message contains `"404"` removes the
resource; any other failure is the hard diagnostic
`"API Read Error"`. -/
def serverResourceRead (dec : String → Except String ServerAPIResponse)
    (state : ServerModel) (resp : HTTPResponse) : ReadOutcome :=
  match clientGet ("/servers/" ++ toString state.id.valueInt64) resp with
  | .error err =>
    if strContains err.render "404" then
      .removed
    else
      .readError err.render
  | .ok body =>
    match dec body with
    | .error msg => .parseError msg
    | .ok apiResp => .ok (apiToModel apiResp)

/-- Outcome of a Delete operation: success, or a hard diagnostic error
carrying the underlying message. -/
inductive DeleteOutcome
  | ok
  | deleteError (msg : String)
deriving DecidableEq, Repr

/-- `ServerResource.Delete` (resource_server.go lines 244-255): issues
the DELETE round trip; an error is reported only when the rendered
message does not contain `"404"`. -/
def serverResourceDelete (state : ServerModel) (resp : HTTPResponse) :
    DeleteOutcome :=
  match clientDelete ("/servers/" ++ toString state.id.valueInt64) resp with
  | none => .ok
  | some err =>
    if strContains err.render "404" then .ok else .deleteError err.render

/-! ## Action-style resources

`resource_server_power.go`, `resource_server_command.go`,
`resource_server_rename.go`, the docker-image resource, the reinstall
resource and `resource_server_startup_variable.go`.  Their Read is a
pass-through from prior state to new state and their Delete performs no
remote call. -/

/-- `serverPowerModel` (resource_server_power.go lines 22-26). -/
structure ServerPowerModel where
  serverID : TFString
  signal : TFString
  id : TFString
deriving DecidableEq, Repr

/-- `serverCommandModel` (resource_server_command.go lines 22-26). -/
structure ServerCommandModel where
  serverID : TFString
  command : TFString
  id : TFString
deriving DecidableEq, Repr

/-- `renameModel` (resource_server_rename.go lines 23-28). -/
structure RenameModel where
  serverID : TFString
  name : TFString
  description : TFString
  id : TFString
deriving DecidableEq, Repr

/-- `dockerImageModel` (docker-image resource, lines 173-177). -/
structure DockerImageModel where
  serverID : TFString
  dockerImage : TFString
  id : TFString
deriving DecidableEq, Repr

/-- `reinstallModel` (reinstall resource, lines 22-26). -/
structure ReinstallModel where
  serverID : TFString
  force : TFBool
  id : TFString
deriving DecidableEq, Repr

/-- `variableModel` (resource_server_startup_variable.go lines
24-29). -/
structure VariableModel where
  serverID : TFString
  key : TFString
  value : TFString
  id : TFString
deriving DecidableEq, Repr

/-- One outbound API call (method and path), used to record which
remote round trips an operation performs. -/
structure APICall where
  method : Method
  path : String
deriving DecidableEq, Repr

/-- `ServerPowerResource.Read` (resource_server_power.go lines 98-102):
loads the prior state, stores it back unchanged, makes no API call.
The second component is the list of remote calls issued. -/
def serverPowerRead (state : ServerPowerModel) :
    ServerPowerModel × List APICall :=
  (state, [])

/-- `ServerCommandResource.Read` (resource_server_command.go lines
103-110): pass-through, no API call. -/
def serverCommandRead (state : ServerCommandModel) :
    ServerCommandModel × List APICall :=
  (state, [])

/-- `ServerRenameResource.Read` (resource_server_rename.go lines
112-120): pass-through, no API call. -/
def serverRenameRead (state : RenameModel) :
    RenameModel × List APICall :=
  (state, [])

/-- `ServerDockerImageResource.Read` (docker-image resource, lines
254-262): pass-through, no API call. -/
def serverDockerImageRead (state : DockerImageModel) :
    DockerImageModel × List APICall :=
  (state, [])

/-- `ServerReinstallResource.Read` (reinstall resource, lines 100-108):
pass-through, no API call. -/
def serverReinstallRead (state : ReinstallModel) :
    ReinstallModel × List APICall :=
  (state, [])

/-- `ServerStartupVariableResource.Read`
(resource_server_startup_variable.go lines 121-129): pass-through, no
API call. -/
def serverStartupVariableRead (state : VariableModel) :
    VariableModel × List APICall :=
  (state, [])

/-- `ServerPowerResource.Delete` (resource_server_power.go lines
122-124): a comment-only no-op body; no API call, no diagnostics. -/
def serverPowerDelete (_state : ServerPowerModel) : DeleteOutcome := .ok

/-- `ServerCommandResource.Delete` (resource_server_command.go lines
134-136): drops the record, no API call. -/
def serverCommandDelete (_state : ServerCommandModel) : DeleteOutcome := .ok

/-- `ServerRenameResource.Delete` (resource_server_rename.go lines
147-150): drops the record, no API call. -/
def serverRenameDelete (_state : RenameModel) : DeleteOutcome := .ok

/-- `ServerDockerImageResource.Delete` (docker-image resource, lines
286-289): drops the record, no API call. -/
def serverDockerImageDelete (_state : DockerImageModel) : DeleteOutcome := .ok

/-- `ServerReinstallResource.Delete` (reinstall resource, lines
134-137): drops the record, no API call. -/
def serverReinstallDelete (_state : ReinstallModel) : DeleteOutcome := .ok

/-- `ServerStartupVariableResource.Delete`
(resource_server_startup_variable.go lines 154-157): drops the record,
no API call. -/
def serverStartupVariableDelete (_state : VariableModel) : DeleteOutcome := .ok

/-! ## Synthetic identities

Each action resource's Create/Update computes its `id` attribute as the
parent server identifier followed by a fixed literal suffix:
`+ "-power"` (resource_server_power.go line 94), `+ "-cmd"`
(resource_server_command.go line 98), `+ "-rename"`
(resource_server_rename.go line 108), `+ "-docker"` (docker-image
resource, line 250), `+ "-reinstall"` (reinstall resource, line 96) and
`+ "-var-" + key` (resource_server_startup_variable.go line 117). -/

/-- The action suffixes used by the six action resources. -/
inductive ActionSuffix
  | power
  | cmd
  | rename
  | docker
  | reinstall
  | var (key : String)
deriving DecidableEq, Repr

/-- The literal string each suffix contributes to the synthetic id. -/
def ActionSuffix.render : ActionSuffix → String
  | .power => "-power"
  | .cmd => "-cmd"
  | .rename => "-rename"
  | .docker => "-docker"
  | .reinstall => "-reinstall"
  | .var key => "-var-" ++ key

/-- Whether a suffix is one of the five fixed (non-`-var-<key>`)
suffixes. -/
def ActionSuffix.isFixed : ActionSuffix → Bool
  | .var _ => false
  | _ => true

/-- The synthetic identity: parent identifier concatenated with the
rendered action suffix, exactly as each Create/Update handler builds
its `id`. -/
def synthesize (parent : String) (s : ActionSuffix) : String :=
  parent ++ s.render

/-! ## Lemmas about substring search and the error rendering -/

lemma charListHasPre_append (pat l t : List Char)
    (h : charListHasPre pat l = true) : charListHasPre pat (l ++ t) = true := by
  induction pat generalizing l with
  | nil => rfl
  | cons p ps ih =>
    cases l with
    | nil => simp [charListHasPre] at h
    | cons c cs =>
      simp only [charListHasPre, Bool.and_eq_true] at h
      simp only [List.cons_append, charListHasPre, Bool.and_eq_true]
      exact ⟨h.1, ih cs h.2⟩

lemma charListHasSub_nil (t : List Char) : charListHasSub [] t = true := by
  cases t <;> simp [charListHasSub, charListHasPre]

lemma charListHasSub_append_right (pat l t : List Char)
    (h : charListHasSub pat l = true) : charListHasSub pat (l ++ t) = true := by
  induction l with
  | nil =>
    simp only [charListHasSub, List.isEmpty_iff] at h
    subst h
    simpa using charListHasSub_nil t
  | cons c cs ih =>
    simp only [charListHasSub, Bool.or_eq_true] at h
    simp only [List.cons_append, charListHasSub, Bool.or_eq_true]
    rcases h with h | h
    · exact Or.inl (by simpa using charListHasPre_append pat (c :: cs) t h)
    · exact Or.inr (ih h)

/-- The rendered message of a status-404 `APIError` always contains the
substring `"404"`, whatever the body, because the formatted status code
itself renders as `404`. -/
lemma render_404_contains (body : String) :
    strContains (APIError.render ⟨404, body⟩) "404" = true := by
  have h404 : toString (404 : Int) = "404" := by decide
  have hdata : (APIError.render ⟨404, body⟩).data =
      "API error 404: ".data ++ body.data := by
    show ("API error " ++ toString (404 : Int) ++ ": " ++ body).data = _
    rw [h404]
    simp [String.data_append]
  rw [strContains, hdata]
  exact charListHasSub_append_right _ _ _ (by decide)

/-- `request` on a non-2xx status fails with the structured error. -/
lemma request_error (m : Method) (p : String) (resp : HTTPResponse)
    (h : resp.statusCode < 200 ∨ 300 ≤ resp.statusCode) :
    request m p resp = .error ⟨resp.statusCode, resp.body⟩ := by
  unfold request
  rw [if_pos]
  exact h.imp id fun hh => hh

/-- `request` on a 2xx status succeeds with the raw body. -/
lemma request_ok (m : Method) (p : String) (resp : HTTPResponse)
    (h : 200 ≤ resp.statusCode ∧ resp.statusCode < 300) :
    request m p resp = .ok resp.body := by
  unfold request
  rw [if_neg]
  omega

/-! ## Claim theorems: transport classification -/

/-- C3: for every round trip issued by `Get`, `Post`, `Patch` or
`Delete`, a response status in `[200, 300)` succeeds with exactly the
raw response body, and any status outside that range fails with an
`APIError` carrying both the numeric status code and the raw response
body. -/
theorem transport_roundtrip_classification (path : String) (resp : HTTPResponse) :
    (200 ≤ resp.statusCode ∧ resp.statusCode < 300 →
       clientGet path resp = .ok resp.body ∧
       clientPost path resp = .ok resp.body ∧
       clientPatch path resp = .ok resp.body ∧
       clientDelete path resp = none) ∧
    (resp.statusCode < 200 ∨ 300 ≤ resp.statusCode →
       clientGet path resp = .error ⟨resp.statusCode, resp.body⟩ ∧
       clientPost path resp = .error ⟨resp.statusCode, resp.body⟩ ∧
       clientPatch path resp = .error ⟨resp.statusCode, resp.body⟩ ∧
       clientDelete path resp = some ⟨resp.statusCode, resp.body⟩) := by
  constructor
  · intro h
    refine ⟨request_ok _ _ _ h, request_ok _ _ _ h, request_ok _ _ _ h, ?_⟩
    rw [clientDelete, request_ok _ _ _ h]
  · intro h
    refine ⟨request_error _ _ _ h, request_error _ _ _ h,
      request_error _ _ _ h, ?_⟩
    rw [clientDelete, request_error _ _ _ h]

/-- Witness for C3 at concrete inputs: a 200 response succeeds with its
body, a 404 response fails with the structured status and body. -/
theorem transport_roundtrip_classification_witness :
    clientGet "/servers/1" ⟨200, "ok-body"⟩ = .ok "ok-body" ∧
    clientPost "/servers/1/power" ⟨404, "missing"⟩ = .error ⟨404, "missing"⟩ := by
  exact ⟨((transport_roundtrip_classification "/servers/1" ⟨200, "ok-body"⟩).1
            (by norm_num)).1,
         ((transport_roundtrip_classification "/servers/1/power"
            ⟨404, "missing"⟩).2 (by norm_num)).2.1⟩

/-! ## Claim theorems: Read not-found classification -/

/-- A concrete prior state for evaluating `ServerResource.Read` on
specific transport answers. -/
def sampleServerState : ServerModel :=
  { id := .value 1
    name := .value "srv"
    userID := .value 2
    eggID := .value 3
    locationID := .value 4
    nodeID := .value 5
    memory := .value 1024
    disk := .value 2048
    cpu := .value 100
    dockerImage := .value "img"
    startupCmd := .value "run" }

/-- A concrete stand-in for `json.Unmarshal`; never reached on the
error paths exercised below. -/
def sampleDecoder : String → Except String ServerAPIResponse :=
  fun _ => .error "unused"

/-- C1 counterexample: a 500 `APIError` whose body happens to contain
the characters `404` is classified by `ServerResource.Read` as
not-found — the record is removed and no hard read failure is
reported — because the code substring-matches `"404"` against the
rendered error text instead of checking the numeric status. -/
theorem serverResourceRead_500_counterexample :
    serverResourceRead sampleDecoder sampleServerState
        ⟨500, "see ticket 404 for details"⟩ = ReadOutcome.removed ∧
    ∀ msg, serverResourceRead sampleDecoder sampleServerState
        ⟨500, "see ticket 404 for details"⟩ ≠ ReadOutcome.readError msg := by
  have base : serverResourceRead sampleDecoder sampleServerState
      ⟨500, "see ticket 404 for details"⟩ = ReadOutcome.removed := by decide
  refine ⟨base, fun msg h => ?_⟩
  rw [base] at h
  exact ReadOutcome.noConfusion h

/-- C1 (amended): for every error body, a 404 `APIError` on
`ServerResource.Read` signals removal and no hard error; a 500
`APIError` propagates the hard `"API Read Error"` failure for every
error body whose rendered message does not contain the substring
`"404"` (without that proviso the 500 half is false, see the
counterexample). -/
theorem serverResourceRead_classification
    (dec : String → Except String ServerAPIResponse) (st : ServerModel) :
    (∀ body, serverResourceRead dec st ⟨404, body⟩ = .removed) ∧
    (∀ body, strContains (APIError.render ⟨500, body⟩) "404" = false →
       serverResourceRead dec st ⟨500, body⟩ =
         .readError (APIError.render ⟨500, body⟩)) := by
  constructor
  · intro body
    rw [serverResourceRead, clientGet, request_error _ _ _ (by norm_num)]
    simp [render_404_contains body]
  · intro body hbody
    rw [serverResourceRead, clientGet, request_error _ _ _ (by norm_num)]
    simp [hbody]

/-- Witness for C1 (amended) at concrete inputs: a 404 with body
`"gone"` removes the record, a 500 with body `"boom"` is a hard read
failure. -/
theorem serverResourceRead_classification_witness :
    serverResourceRead sampleDecoder sampleServerState ⟨404, "gone"⟩ =
      ReadOutcome.removed ∧
    serverResourceRead sampleDecoder sampleServerState ⟨500, "boom"⟩ =
      ReadOutcome.readError (APIError.render ⟨500, "boom"⟩) := by
  exact ⟨(serverResourceRead_classification sampleDecoder sampleServerState).1
            "gone",
         (serverResourceRead_classification sampleDecoder sampleServerState).2
            "boom" (by decide)⟩

/-! ## Claim theorems: idempotent delete -/

/-- C4: deleting an identity that no longer exists remotely reports no
error: `ServerResource.Delete` treats a 404 `APIError` (any body) as
success, and the six action-style resources' Delete handlers issue no
remote call and unconditionally succeed. -/
theorem delete_idempotent :
    (∀ (st : ServerModel) (body : String),
       serverResourceDelete st ⟨404, body⟩ = .ok) ∧
    (∀ st : ServerPowerModel, serverPowerDelete st = .ok) ∧
    (∀ st : ServerCommandModel, serverCommandDelete st = .ok) ∧
    (∀ st : RenameModel, serverRenameDelete st = .ok) ∧
    (∀ st : DockerImageModel, serverDockerImageDelete st = .ok) ∧
    (∀ st : ReinstallModel, serverReinstallDelete st = .ok) ∧
    (∀ st : VariableModel, serverStartupVariableDelete st = .ok) := by
  refine ⟨?_, fun _ => rfl, fun _ => rfl, fun _ => rfl, fun _ => rfl,
    fun _ => rfl, fun _ => rfl⟩
  intro st body
  rw [serverResourceDelete, clientDelete, request_error _ _ _ (by norm_num)]
  simp [render_404_contains body]

/-! ## Claim theorems: codec round trip -/

/-- C5: decoding a server API response with `apiToModel` and re-encoding
with `modelToPayload` reproduces every creation-payload field (name,
user, egg, location, node, memory, disk, cpu, docker_image, startup)
unchanged from the response. -/
theorem codec_roundtrip (r : ServerAPIResponse) :
    modelToPayload (apiToModel r) =
      { name := r.attributes.name
        user := r.attributes.user
        egg := r.attributes.egg
        location := r.attributes.location
        node := r.attributes.node
        memory := r.attributes.memory
        disk := r.attributes.disk
        cpu := r.attributes.cpu
        docker_image := r.attributes.docker_image
        startup := r.attributes.startup } := rfl

/-! ## Claim theorems: synthetic identities -/

lemma append_eq_pre (a b c d : List Char) (h : a ++ b = c ++ d) :
    charListHasPre a c = true ∨ charListHasPre c a = true := by
  induction a generalizing c with
  | nil => left; rfl
  | cons x xs ih =>
    cases c with
    | nil => right; rfl
    | cons y ys =>
      simp only [List.cons_append, List.cons.injEq] at h
      obtain ⟨rfl, h2⟩ := h
      rcases ih ys h2 with h' | h'
      · left; simp [charListHasPre, h']
      · right; simp [charListHasPre, h']

/-- If neither of two suffix strings is a character-for-character suffix
of the other (their reversals are prefix-incomparable), then appending
them to any two parents never produces the same string. -/
lemma append_suffix_ne (r₁ r₂ : String)
    (h₁₂ : charListHasPre r₁.data.reverse r₂.data.reverse = false)
    (h₂₁ : charListHasPre r₂.data.reverse r₁.data.reverse = false) :
    ∀ p₁ p₂ : String, p₁ ++ r₁ ≠ p₂ ++ r₂ := by
  intro p₁ p₂ h
  have hd : p₁.data ++ r₁.data = p₂.data ++ r₂.data := by
    have := congrArg String.data h
    simpa [String.data_append] using this
  have hrev : r₁.data.reverse ++ p₁.data.reverse =
      r₂.data.reverse ++ p₂.data.reverse := by
    have := congrArg List.reverse hd
    simpa [List.reverse_append] using this
  rcases append_eq_pre _ _ _ _ hrev with h' | h'
  · simp [h₁₂] at h'
  · simp [h₂₁] at h'

/-- Appending the same suffix string cancels. -/
lemma append_right_cancel_str (p₁ p₂ r : String) (h : p₁ ++ r = p₂ ++ r) :
    p₁ = p₂ := by
  have hd : p₁.data ++ r.data = p₂.data ++ r.data := by
    have := congrArg String.data h
    simpa [String.data_append] using this
  have hrev := congrArg List.reverse hd
  simp only [List.reverse_append] at hrev
  have : p₁.data = p₂.data :=
    List.reverse_injective (List.append_cancel_left hrev)
  exact congrArg String.mk this

/-- C2 counterexample: with the `-var-<key>` suffix family included,
two distinct (parent, suffix) pairs can synthesize the same identity:
parent `"a"` with suffix `-var-b-power` collides with parent
`"a-var-b"` with suffix `-power`, both yielding `"a-var-b-power"`. -/
theorem synthesize_collision_counterexample :
    synthesize "a" (ActionSuffix.var "b-power") =
      synthesize "a-var-b" ActionSuffix.power ∧
    ¬("a" = "a-var-b" ∧
      ActionSuffix.var "b-power" = ActionSuffix.power) := by
  refine ⟨by decide, fun h => ?_⟩
  exact absurd h.1 (by decide)

/-- C2 (amended): `synthesize` is a pure function of its two arguments
(equal inputs give equal outputs), and it is injective on the five
fixed action suffixes `-power`, `-cmd`, `-rename`, `-docker`,
`-reinstall`; once the open-ended `-var-<key>` suffixes are included,
distinct pairs can collide (see the counterexample). -/
theorem synthesize_deterministic_and_fixed_inj :
    (∀ (p : String) (s : ActionSuffix), synthesize p s = synthesize p s) ∧
    (∀ (p₁ p₂ : String) (s₁ s₂ : ActionSuffix),
       s₁.isFixed = true → s₂.isFixed = true →
       synthesize p₁ s₁ = synthesize p₂ s₂ → p₁ = p₂ ∧ s₁ = s₂) := by
  refine ⟨fun _ _ => rfl, ?_⟩
  intro p₁ p₂ s₁ s₂ h₁ h₂ h
  cases s₁ with
  | var k => exact absurd h₁ (by simp [ActionSuffix.isFixed])
  | power =>
    cases s₂ with
    | var k => exact absurd h₂ (by simp [ActionSuffix.isFixed])
    | power => exact ⟨append_right_cancel_str _ _ _ h, rfl⟩
    | cmd => exact absurd h (append_suffix_ne _ _ (by decide) (by decide) p₁ p₂)
    | rename => exact absurd h (append_suffix_ne _ _ (by decide) (by decide) p₁ p₂)
    | docker => exact absurd h (append_suffix_ne _ _ (by decide) (by decide) p₁ p₂)
    | reinstall => exact absurd h (append_suffix_ne _ _ (by decide) (by decide) p₁ p₂)
  | cmd =>
    cases s₂ with
    | var k => exact absurd h₂ (by simp [ActionSuffix.isFixed])
    | cmd => exact ⟨append_right_cancel_str _ _ _ h, rfl⟩
    | power => exact absurd h (append_suffix_ne _ _ (by decide) (by decide) p₁ p₂)
    | rename => exact absurd h (append_suffix_ne _ _ (by decide) (by decide) p₁ p₂)
    | docker => exact absurd h (append_suffix_ne _ _ (by decide) (by decide) p₁ p₂)
    | reinstall => exact absurd h (append_suffix_ne _ _ (by decide) (by decide) p₁ p₂)
  | rename =>
    cases s₂ with
    | var k => exact absurd h₂ (by simp [ActionSuffix.isFixed])
    | rename => exact ⟨append_right_cancel_str _ _ _ h, rfl⟩
    | power => exact absurd h (append_suffix_ne _ _ (by decide) (by decide) p₁ p₂)
    | cmd => exact absurd h (append_suffix_ne _ _ (by decide) (by decide) p₁ p₂)
    | docker => exact absurd h (append_suffix_ne _ _ (by decide) (by decide) p₁ p₂)
    | reinstall => exact absurd h (append_suffix_ne _ _ (by decide) (by decide) p₁ p₂)
  | docker =>
    cases s₂ with
    | var k => exact absurd h₂ (by simp [ActionSuffix.isFixed])
    | docker => exact ⟨append_right_cancel_str _ _ _ h, rfl⟩
    | power => exact absurd h (append_suffix_ne _ _ (by decide) (by decide) p₁ p₂)
    | cmd => exact absurd h (append_suffix_ne _ _ (by decide) (by decide) p₁ p₂)
    | rename => exact absurd h (append_suffix_ne _ _ (by decide) (by decide) p₁ p₂)
    | reinstall => exact absurd h (append_suffix_ne _ _ (by decide) (by decide) p₁ p₂)
  | reinstall =>
    cases s₂ with
    | var k => exact absurd h₂ (by simp [ActionSuffix.isFixed])
    | reinstall => exact ⟨append_right_cancel_str _ _ _ h, rfl⟩
    | power => exact absurd h (append_suffix_ne _ _ (by decide) (by decide) p₁ p₂)
    | cmd => exact absurd h (append_suffix_ne _ _ (by decide) (by decide) p₁ p₂)
    | rename => exact absurd h (append_suffix_ne _ _ (by decide) (by decide) p₁ p₂)
    | docker => exact absurd h (append_suffix_ne _ _ (by decide) (by decide) p₁ p₂)

/-- Witness for C2 (amended) at concrete inputs: the injectivity
direction applied to the colliding rendering of one fixed pair. -/
theorem synthesize_deterministic_and_fixed_inj_witness :
    "1a2b3c" = "1a2b3c" ∧ ActionSuffix.power = ActionSuffix.power :=
  synthesize_deterministic_and_fixed_inj.2 "1a2b3c" "1a2b3c"
    ActionSuffix.power ActionSuffix.power rfl rfl rfl

/-! ## Activity-logs query (`internal/provider/data_server_activity_logs.go`) -/

/-- The whitespace set of Go `unicode.IsSpace` restricted to Latin-1
(`\t \n \v \f \r` space, NEL, NBSP); the log lines in question are
ASCII console output, for which this coincides with Go's rule. -/
def isGoSpace (c : Char) : Bool :=
  c = ' ' ∨ c = '\t' ∨ c = '\n' ∨ c = '\u000B' ∨ c = '\u000C' ∨ c = '\r' ∨
    c = '\u0085' ∨ c = '\u00A0'

/-- Go `strings.TrimSpace`: remove leading and trailing whitespace. -/
def goTrimSpace (s : String) : String :=
  ⟨((s.data.dropWhile isGoSpace).reverse.dropWhile isGoSpace).reverse⟩

/-- Characters admitted inside an ANSI escape by the pattern
`[0-9;]*`. -/
def isAnsiParam (c : Char) : Bool :=
  c.isDigit || c = ';'

/-- The final letter of an ANSI escape, pattern `[a-zA-Z]`. -/
def isAnsiLetter (c : Char) : Bool :=
  c.isAlpha

/-- Greedily consume `[0-9;]*` and then require one `[a-zA-Z]`,
returning the remainder after a complete escape-sequence match.  The
two character classes are disjoint, so this is exactly the (unique)
match of the regular expression tail at this position. -/
def ansiTail : List Char → Option (List Char)
  | [] => none
  | c :: rest =>
    if isAnsiParam c then ansiTail rest
    else if isAnsiLetter c then some rest
    else none

/-- Try to match `\x1b\[[0-9;]*[a-zA-Z]` at the head of the list,
returning the remainder after the match. -/
def ansiMatch : List Char → Option (List Char)
  | '\x1b' :: '[' :: rest => ansiTail rest
  | _ => none

/-- One left-to-right pass replacing every leftmost, non-overlapping
match of the escape pattern by nothing, as
`regexp.MustCompile(ansi).ReplaceAllString(str, "")` does.  `fuel` is
an upper bound on the remaining input length (every step consumes at
least one character), which makes the recursion structural. -/
def stripANSIGo : Nat → List Char → List Char
  | 0, _ => []
  | _ + 1, [] => []
  | fuel + 1, c :: rest =>
    match ansiMatch (c :: rest) with
    | some rest' => stripANSIGo fuel rest'
    | none => c :: stripANSIGo fuel rest

/-- `stripANSI` (data_server_activity_logs.go lines 166-170). -/
def stripANSI (str : String) : String :=
  ⟨stripANSIGo str.data.length str.data⟩

/-- One API log event (the element type of the decoded `data` array,
data_server_activity_logs.go lines 112-118). -/
structure LogEvent where
  event : String
  args : List String
  timestamp : String
deriving DecidableEq, Repr

/-- The body of the per-entry loop (data_server_activity_logs.go lines
128-138): keep a `console output` event with at least one argument
whose first argument, trimmed and ANSI-stripped, is non-blank,
appending the cleaned line and the entry's timestamp to the two
accumulators in lockstep. -/
def logStep (acc : List String × List String) (entry : LogEvent) :
    List String × List String :=
  if entry.event = "console output" ∧ 0 < entry.args.length then
    let line := stripANSI (goTrimSpace (entry.args.headD ""))
    if line ≠ "" then (acc.1 ++ [line], acc.2 ++ [entry.timestamp])
    else acc
  else acc

/-- The log post-processing of `ServerActivityLogsDataSource.Read`
(data_server_activity_logs.go lines 125-145): run the filtering loop
over the events in API order, then reverse both accumulated lists (the
in-place swap loop at lines 141-145) so the most recent entry comes
first. -/
def readLogs (data : List LogEvent) : List String × List String :=
  let acc := data.foldl logStep ([], [])
  (acc.1.reverse, acc.2.reverse)

/-- Which single event is kept, and with what cleaned text: the
event-type and blank-line filters of the loop as an option-valued
function of one entry. -/
def keepEntry (entry : LogEvent) : Option (String × String) :=
  if entry.event = "console output" ∧ 0 < entry.args.length then
    let line := stripANSI (goTrimSpace (entry.args.headD ""))
    if line ≠ "" then some (line, entry.timestamp) else none
  else none

/-- The kept (line, timestamp) pairs in API order: a direct
characterization of which events survive the event-type filter and the
blank-line filter, and of the cleaned text each contributes. -/
def keptPairs (data : List LogEvent) : List (String × String) :=
  data.filterMap keepEntry

/-- The requested-line-count normalization of
`ServerActivityLogsDataSource.Read` (data_server_activity_logs.go
lines 90-97): an unset count (`ValueInt64` of null is `0`) becomes 50,
then anything above 100 is clamped to 100. -/
def effectiveLineCount (requested : TFInt) : Int :=
  let lines := requested.valueInt64
  let lines := if lines = 0 then 50 else lines
  if lines > 100 then 100 else lines

/-- The loop body, expressed through `keepEntry`: a kept entry appends
its line and timestamp to the two accumulators, a dropped entry leaves
them unchanged. -/
lemma logStep_eq (acc : List String × List String) (e : LogEvent) :
    logStep acc e =
      match keepEntry e with
      | some p => (acc.1 ++ [p.1], acc.2 ++ [p.2])
      | none => acc := by
  unfold logStep keepEntry
  dsimp only
  split_ifs <;> rfl

/-- The accumulating loop is the filterMap characterization: folding
`logStep` over the events appends, in API order, exactly the kept
(line, timestamp) pairs, split into the two component lists. -/
lemma foldl_logStep_eq (data : List LogEvent) (acc : List String × List String) :
    data.foldl logStep acc =
      (acc.1 ++ (keptPairs data).map Prod.fst,
       acc.2 ++ (keptPairs data).map Prod.snd) := by
  induction data generalizing acc with
  | nil => simp [keptPairs]
  | cons e es ih =>
    rw [List.foldl_cons, ih, logStep_eq]
    cases hk : keepEntry e with
    | none => simp [keptPairs, List.filterMap_cons, hk]
    | some p => simp [keptPairs, List.filterMap_cons, hk]

/-! ## Claim theorems: activity logs -/

/-- C6: the activity-logs output is the kept console lines in reverse
API order (newest first when the API is oldest-first), where a line is
kept exactly when its event is `console output`, and its first
argument — trimmed and with ANSI escape sequences stripped — is
non-blank; on the concrete input events
`[{text:"\x1b[32mboot ok\x1b[0m"}, {text:"ready"}]` the output is
`["ready", "boot ok"]`. -/
theorem activity_logs_processing :
    (∀ data : List LogEvent,
       (readLogs data).1 = ((keptPairs data).map Prod.fst).reverse) ∧
    readLogs [⟨"console output", ["\x1b[32mboot ok\x1b[0m"], "t1"⟩,
              ⟨"console output", ["ready"], "t2"⟩] =
      (["ready", "boot ok"], ["t2", "t1"]) := by
  constructor
  · intro data
    show (data.foldl logStep ([], [])).1.reverse = _
    rw [foldl_logStep_eq]
    simp
  · decide

/-- C7: the requested line count defaults to 50 when unspecified, is
clamped to 100 for any request above 100, and is used as given for any
request in `(0, 100]`. -/
theorem effectiveLineCount_clamp :
    effectiveLineCount .null = 50 ∧
    (∀ n : Int, 100 < n → effectiveLineCount (.value n) = 100) ∧
    (∀ n : Int, 0 < n → n ≤ 100 → effectiveLineCount (.value n) = n) := by
  refine ⟨by decide, ?_, ?_⟩
  · intro n h
    simp only [effectiveLineCount, TFInt.valueInt64]
    split_ifs <;> omega
  · intro n h1 h2
    simp only [effectiveLineCount, TFInt.valueInt64]
    split_ifs <;> omega

/-- Witness for C7 at concrete inputs: 250 is clamped to 100, 7 is
used as given. -/
theorem effectiveLineCount_clamp_witness :
    effectiveLineCount (.value 250) = 100 ∧
    effectiveLineCount (.value 7) = 7 :=
  ⟨effectiveLineCount_clamp.2.1 250 (by norm_num),
   effectiveLineCount_clamp.2.2 7 (by norm_num) (by norm_num)⟩

/-- C10: the logs list and the timestamps list are the two projections
of one reversed list of kept (line, timestamp) pairs: they always have
equal length, and for every index the i-th timestamp is the timestamp
of the exact event whose cleaned text is the i-th log line — the
event-type filter, blank-line filter and final reversal act on both
lists in lockstep. -/
theorem readLogs_lockstep (data : List LogEvent) :
    (readLogs data).1 = (keptPairs data).reverse.map Prod.fst ∧
    (readLogs data).2 = (keptPairs data).reverse.map Prod.snd ∧
    (readLogs data).1.length = (readLogs data).2.length ∧
    ∀ i : ℕ,
      (readLogs data).1[i]? = ((keptPairs data).reverse[i]?).map Prod.fst ∧
      (readLogs data).2[i]? = ((keptPairs data).reverse[i]?).map Prod.snd := by
  have hfst : (readLogs data).1 = (keptPairs data).reverse.map Prod.fst := by
    show (data.foldl logStep ([], [])).1.reverse = _
    rw [foldl_logStep_eq]
    simp [List.map_reverse]
  have hsnd : (readLogs data).2 = (keptPairs data).reverse.map Prod.snd := by
    show (data.foldl logStep ([], [])).2.reverse = _
    rw [foldl_logStep_eq]
    simp [List.map_reverse]
  refine ⟨hfst, hsnd, ?_, ?_⟩
  · rw [hfst, hsnd]
    simp
  · intro i
    rw [hfst, hsnd]
    constructor <;> rw [List.getElem?_map]

/-! ## Utilization query (`internal/provider/data_server_utilization.go`)

The Go code computes `float64(memory) / (1024*1024)` and rounds with
`roundTo`.  We model the float64 arithmetic over `ℚ`; for the inputs
considered here (a power-of-two byte count, scaling by 100, adding 0.5
and truncating) every intermediate float64 value is exactly
representable, so the rational model computes the same values the Go
code does. -/

/-- Go `int64(x)` on a non-negative float: truncation toward zero. -/
def ratTruncToInt (q : ℚ) : ℤ :=
  q.num.tdiv q.den

/-- The `factor` accumulation loop of `roundTo`: start at 1, multiply
by 10 once per decimal place. -/
def roundFactor : Nat → ℚ
  | 0 => 1
  | n + 1 => roundFactor n * 10

/-- `roundTo` (data_server_utilization.go lines 161-167):
`float64(int64(n*factor+0.5)) / factor`, round-half-up for
non-negative inputs. -/
def roundTo (n : ℚ) (decimals : Nat) : ℚ :=
  let factor := roundFactor decimals
  (ratTruncToInt (n * factor + 1/2) : ℚ) / factor

/-- The derived `memory_mb` field of
`ServerUtilizationDataSource.Read` (data_server_utilization.go lines
140-149): bytes divided by `1024*1024`, rounded to two decimals. -/
def utilizationMemoryMB (memory : Int) : ℚ :=
  roundTo ((memory : ℚ) / (1024 * 1024)) 2

/-- On non-negative rationals, truncation toward zero is the floor. -/
lemma ratTruncToInt_eq_floor (q : ℚ) (h : 0 ≤ q) : ratTruncToInt q = ⌊q⌋ := by
  rw [Rat.floor_def, ratTruncToInt]
  exact Int.tdiv_eq_ediv (Rat.num_nonneg.mpr h) (Int.natCast_nonneg _)

/-- C8: for an API response with `memory = 2147483648` bytes, the
derived `memory_mb` equals exactly 2048 (the byte count divided by
1,048,576, two-decimal round-half-up leaving the integral value
untouched). -/
theorem memory_mb_conversion : utilizationMemoryMB 2147483648 = 2048 := by
  unfold utilizationMemoryMB roundTo
  dsimp only
  have h1 : ((2147483648 : Int) : ℚ) / (1024 * 1024) * roundFactor 2 + 1/2 =
      409601 / 2 := by
    norm_num [roundFactor]
  rw [h1, ratTruncToInt_eq_floor _ (by norm_num)]
  norm_num [roundFactor]

/-! ## Claim theorems: action-resource Read is a pass-through -/

/-- C9: for all six action-type resources (power signal, console
command, rename, docker-image change, reinstall, startup variable),
Read returns the stored record unchanged — every field after Read
equals the field before — and issues no remote API call (the empty
call trace). -/
theorem action_read_passthrough :
    (∀ s : ServerPowerModel, serverPowerRead s = (s, [])) ∧
    (∀ s : ServerCommandModel, serverCommandRead s = (s, [])) ∧
    (∀ s : RenameModel, serverRenameRead s = (s, [])) ∧
    (∀ s : DockerImageModel, serverDockerImageRead s = (s, [])) ∧
    (∀ s : ReinstallModel, serverReinstallRead s = (s, [])) ∧
    (∀ s : VariableModel, serverStartupVariableRead s = (s, [])) :=
  ⟨fun _ => rfl, fun _ => rfl, fun _ => rfl, fun _ => rfl, fun _ => rfl,
   fun _ => rfl⟩
